import Mathlib

/-!
Verification of the `flask_db_admin` command-line extension (`src/__init__.py`).

The module is a thin click-based CLI that forwards Flask application
configuration to Alembic command functions and to the native `pg_dump` /
`pg_restore` binaries via `subprocess.call`.  We embed the observable
behaviour of each command shallowly:

* application configuration is a record of optional string values
  (`dict.__getitem__` on a missing key raises `KeyError`; `dict.get`
  returns `None`);
* the side effects of a command are a trace of `Effect`s (environment
  mutations and subprocess invocations) together with an optional Python
  exception, produced in the order the Python statements execute;
* the Alembic configuration object is a record holding its file name, its
  main-section options, and the `cmd_opts.x` list.
-/

namespace FlaskDbAdmin

/-- Flask application configuration keys read by the module.  A field is
`none` when the key is absent from `app.config`. -/
structure AppConfig where
  PG_PASSWORD : Option String
  PG_HOST : Option String
  PG_USERNAME : Option String
  PG_DB_NAME : Option String
  PG_BIN_DIR : Option String
deriving Repr, DecidableEq

/-- Observable side effects of the pg commands, in execution order. -/
inductive Effect
  | setEnv (name value : String)
  | call (args : List String)
deriving Repr, DecidableEq

/-- Python exceptions the pg commands can raise. -/
inductive PyError
  | keyError (key : String)
  | typeError
deriving Repr, DecidableEq

/-- Recognise a subprocess invocation in an effect trace. -/
def is_call : Effect → Bool
  | Effect.call _ => true
  | _ => false

/-- Embedding of `dump` (src/__init__.py lines 109-122).  Statements in
source order: set `os.environ` from `config["PG_PASSWORD"]` (KeyError when
absent), build the binary path `config.get("PG_BIN_DIR") + "pg_dump"`
(TypeError when `get` returns None), then `subprocess.call` with the
argument tuple, whose return code `_rc` is discarded. -/
def dump (cfg : AppConfig) (location : String) (_rc : Int) :
    List Effect × Option PyError :=
  match cfg.PG_PASSWORD with
  | none => ([], some (PyError.keyError "PG_PASSWORD"))
  | some password =>
    let setpw := Effect.setEnv "PGPASSWORD" password
    match cfg.PG_BIN_DIR with
    | none => ([setpw], some PyError.typeError)
    | some bin_dir =>
      match cfg.PG_HOST with
      | none => ([setpw], some (PyError.keyError "PG_HOST"))
      | some host =>
        match cfg.PG_USERNAME with
        | none => ([setpw], some (PyError.keyError "PG_USERNAME"))
        | some username =>
          match cfg.PG_DB_NAME with
          | none => ([setpw], some (PyError.keyError "PG_DB_NAME"))
          | some db_name =>
            ([setpw,
              Effect.call [bin_dir ++ "pg_dump",
                "--host=" ++ host,
                "--username=" ++ username,
                "--format=c",
                db_name,
                "--file=" ++ location]], none)

/-- Embedding of `restore` (src/__init__.py lines 125-138), built exactly
like `dump` but invoking `pg_restore` with `--dbname=`, `--clean` and the
positional input location. -/
def restore (cfg : AppConfig) (location : String) (_rc : Int) :
    List Effect × Option PyError :=
  match cfg.PG_PASSWORD with
  | none => ([], some (PyError.keyError "PG_PASSWORD"))
  | some password =>
    let setpw := Effect.setEnv "PGPASSWORD" password
    match cfg.PG_BIN_DIR with
    | none => ([setpw], some PyError.typeError)
    | some bin_dir =>
      match cfg.PG_HOST with
      | none => ([setpw], some (PyError.keyError "PG_HOST"))
      | some host =>
        match cfg.PG_USERNAME with
        | none => ([setpw], some (PyError.keyError "PG_USERNAME"))
        | some username =>
          match cfg.PG_DB_NAME with
          | none => ([setpw], some (PyError.keyError "PG_DB_NAME"))
          | some db_name =>
            ([setpw,
              Effect.call [bin_dir ++ "pg_restore",
                "--host=" ++ host,
                "--username=" ++ username,
                "--dbname=" ++ db_name,
                "--clean",
                location]], none)

/-- ORM schema operations triggered by the bootstrap commands. -/
inductive DbOp
  | drop_all
  | create_all
deriving Repr, DecidableEq

/-- Embedding of the `drop-all` command (lines 92-97): the
`click.confirmation_option` aborts before the callback runs when the
confirmation is declined, so `db.drop_all()` executes only when
`confirmed` holds. -/
def drop_all_cmd (confirmed : Bool) : List DbOp :=
  if confirmed then [DbOp.drop_all] else []

/-- Embedding of the `reset-all` command (lines 99-106): the body is
guarded by `click.confirm`; when confirmed it runs `db.drop_all()` then
`db.create_all()`. -/
def reset_all_cmd (confirmed : Bool) : List DbOp :=
  if confirmed then [DbOp.drop_all, DbOp.create_all] else []

/-- Model of posix `os.path.join` for two components. -/
def os_path_join (a b : String) : String :=
  if b.startsWith "/" then b
  else if a = "" || a.endsWith "/" then a ++ b
  else a ++ "/" ++ b

/-- The Alembic `Config` object as observed by this layer: its config file
name, the main-section options, and the `cmd_opts.x` extra-argument list. -/
structure AlembicConfig where
  config_file_name : Option String
  main_options : List (String × String)
  cmd_opts_x : Option (List String)
deriving Repr, DecidableEq

/-- `Config.set_main_option`: store a key/value pair in the main section,
overwriting any previous value for the key. -/
def set_main_option (c : AlembicConfig) (k v : String) : AlembicConfig :=
  AlembicConfig.mk c.config_file_name
    ((k, v) :: c.main_options.filter (fun p => p.1 ≠ k)) c.cmd_opts_x

/-- Read back a main-section option. -/
def get_main_option (c : AlembicConfig) (k : String) : Option String :=
  c.main_options.lookup k

/-- Embedding of `_get_config` (lines 65-75): build a `Config` on
`os.path.join(directory, "alembic.ini")`, set `script_location` to the
extension's directory, and append `x_arg` to `cmd_opts.x` when given. -/
def _get_config (directory : String) (x_arg : Option String) : AlembicConfig :=
  let config := AlembicConfig.mk (some (os_path_join directory "alembic.ini")) [] none
  let config := set_main_option config "script_location" directory
  match x_arg with
  | none => config
  | some x =>
    AlembicConfig.mk config.config_file_name config.main_options
      (some ((config.cmd_opts_x.getD []) ++ [x]))

/-- Embedding of the configuration built by `init` (lines 141-148): a bare
`Config()`, then `script_location` is set and `config_file_name` assigned. -/
def init_config (directory : String) : AlembicConfig :=
  let config := AlembicConfig.mk none [] none
  let config := set_main_option config "script_location" directory
  AlembicConfig.mk (some (os_path_join directory "alembic.ini"))
    config.main_options config.cmd_opts_x

/-- The call `alembic.command.downgrade(config, revision, sql=sql, tag=tag)`
made by the `downgrade` command. -/
structure DowngradeCall where
  config : AlembicConfig
  revision : String
  sql : Bool
  tag : Option String
deriving Repr, DecidableEq

/-- Embedding of `downgrade` (lines 210-223): `revision` is the click
argument, defaulting to `"-1"` when the invocation supplies none; when
`sql` is set and the revision equals `"-1"` it is rewritten to
`"head:-1"` before the engine call. -/
def downgrade_cmd (directory : String) (rev_arg : Option String) (sql : Bool)
    (tag x_arg : Option String) : DowngradeCall :=
  let config := _get_config directory x_arg
  let revision := rev_arg.getD "-1"
  let revision := if sql && revision == "-1" then "head:-1" else revision
  DowngradeCall.mk config revision sql tag

/-- Parameters for which the `current` command declares click options
(line 265): only the verbose flag. -/
def current_option_params : List String := ["verbose"]

/-- Parameter names of the `current` callback function (line 266). -/
def current_callback_params : List String := ["verbose", "head_only"]

/-- Python keyword-call semantics: the first callback parameter that the
supplied keyword arguments do not cover, if any. -/
def missing_param (callback_params supplied : List String) : Option String :=
  callback_params.find? (fun p => !supplied.contains p)

/-- Outcome of invoking the `current` command. -/
inductive CurrentResult
  | type_error (missing : String)
  | engine_current
deriving Repr, DecidableEq

/-- Embedding of invoking `db migrate current`: click calls the callback
with one keyword argument per declared parameter; Python raises
`TypeError` if a callback parameter is left without a value, and only
otherwise does the body reach `alembic.command.current`. -/
def current_cmd : CurrentResult :=
  match missing_param current_callback_params current_option_params with
  | some p => CurrentResult.type_error p
  | none => CurrentResult.engine_current

/-- C1 counterexample: the claim says an explicitly supplied revision is
passed to the engine unchanged, but explicitly supplying `"-1"` with
`sql=true` is rewritten to `"head:-1"`, because the code tests the value
of the argument and cannot tell an explicit `"-1"` from the default. -/
theorem C1_counterexample :
    (downgrade_cmd "migrations" (some "-1") true none none).revision = "head:-1" ∧
    (downgrade_cmd "migrations" (some "-1") true none none).revision ≠ "-1" := by
  decide

/-- C1 (amended): with `sql=true` and no explicit revision the engine
target is `"head:-1"`; an explicitly supplied revision is passed through
unchanged unless it equals `"-1"` with `sql=true`, in which case it is
also rewritten to `"head:-1"`; with `sql=false` every revision is passed
through unchanged. -/
theorem C1_amended (directory : String) (tag x_arg : Option String) (r : String) :
    ((downgrade_cmd directory none true tag x_arg).revision = "head:-1") ∧
    (r ≠ "-1" → (downgrade_cmd directory (some r) true tag x_arg).revision = r) ∧
    ((downgrade_cmd directory (some r) false tag x_arg).revision = r) ∧
    ((downgrade_cmd directory none false tag x_arg).revision = "-1") ∧
    ((downgrade_cmd directory (some "-1") true tag x_arg).revision = "head:-1") := by
  refine ⟨rfl, ?_, rfl, rfl, rfl⟩
  intro h
  have hb : (r == "-1") = false := beq_eq_false_iff_ne.mpr h
  simp [downgrade_cmd, hb]

/-- C1 amended witness at concrete inputs. -/
theorem C1_amended_witness :
    (downgrade_cmd "migrations" (some "abc123") true none none).revision = "abc123" :=
  (C1_amended "migrations" none none "abc123").2.1 (by decide)

/-- C2 counterexample: the dump argument list is not exactly the binary
path, host, username, database name and output path — it also contains
the element `"--format=c"`. -/
theorem C2_counterexample :
    (dump (AppConfig.mk (some "pw") (some "db1") (some "admin") (some "app")
        (some "/usr/bin/")) "out.dump" 0).1 =
      [Effect.setEnv "PGPASSWORD" "pw",
       Effect.call ["/usr/bin/pg_dump", "--host=db1", "--username=admin",
         "--format=c", "app", "--file=out.dump"]] ∧
    (dump (AppConfig.mk (some "pw") (some "db1") (some "admin") (some "app")
        (some "/usr/bin/")) "out.dump" 0).1 ≠
      [Effect.setEnv "PGPASSWORD" "pw",
       Effect.call ["/usr/bin/pg_dump", "--host=db1", "--username=admin",
         "app", "--file=out.dump"]] := by
  decide

/-- C2 (amended): for every dump invocation with fully populated
configuration, the subprocess argument list is exactly the binary path,
the host option, the username option, the format flag `"--format=c"`, the
database name and the output file option, in that fixed order and nothing
else. -/
theorem C2_amended (password host username db_name bin_dir location : String)
    (rc : Int) :
    (dump (AppConfig.mk (some password) (some host) (some username)
        (some db_name) (some bin_dir)) location rc).1 =
      [Effect.setEnv "PGPASSWORD" password,
       Effect.call [bin_dir ++ "pg_dump",
         "--host=" ++ host,
         "--username=" ++ username,
         "--format=c",
         db_name,
         "--file=" ++ location]] := rfl

/-- C3: restoring `backup.dump` with host `db1`, username `admin` and
database `app` invokes exactly
`[bin_dir ++ "pg_restore", "--host=db1", "--username=admin",
"--dbname=app", "--clean", "backup.dump"]`, for every password, binary
directory and child exit code. -/
theorem C3_restore_example (password bin_dir : String) (rc : Int) :
    (restore (AppConfig.mk (some password) (some "db1") (some "admin")
        (some "app") (some bin_dir)) "backup.dump" rc).1 =
      [Effect.setEnv "PGPASSWORD" password,
       Effect.call [bin_dir ++ "pg_restore", "--host=db1", "--username=admin",
         "--dbname=app", "--clean", "backup.dump"]] := rfl

/-- C4: when confirmation is declined, `drop-all` performs no ORM drop,
and `reset-all` performs neither the drop nor the create. -/
theorem C4_declined_no_ops :
    DbOp.drop_all ∉ drop_all_cmd false ∧
    DbOp.drop_all ∉ reset_all_cmd false ∧
    DbOp.create_all ∉ reset_all_cmd false := by
  decide

/-- C5: when `reset-all` is confirmed, `drop_all` runs exactly once,
`create_all` runs exactly once, and the drop strictly precedes the
create. -/
theorem C5_reset_order :
    (reset_all_cmd true).count DbOp.drop_all = 1 ∧
    (reset_all_cmd true).count DbOp.create_all = 1 ∧
    (reset_all_cmd true).indexOf DbOp.drop_all <
      (reset_all_cmd true).indexOf DbOp.create_all := by
  decide

/-- C6: every Alembic configuration built by `_get_config` (for any extra
argument) and by `init` has its `script_location` main option equal to the
extension's migrations directory. -/
theorem C6_script_location (directory : String) (x_arg : Option String) :
    get_main_option (_get_config directory x_arg) "script_location" =
      some directory ∧
    get_main_option (init_config directory) "script_location" =
      some directory := by
  constructor
  · cases x_arg <;>
      simp [_get_config, get_main_option, set_main_option, List.lookup]
  · simp [init_config, get_main_option, set_main_option, List.lookup]

/-- C7: for every dump and restore invocation whose configuration holds a
password, the first effect is setting the `PGPASSWORD` environment
variable to the configured `PG_PASSWORD`; with a fully populated
configuration the trace is exactly that assignment followed by the
subprocess call, so the assignment precedes the native binary. -/
theorem C7_password_env (password host username db_name bin_dir location : String)
    (ho uo dbo bo : Option String) (rc : Int) :
    ((dump (AppConfig.mk (some password) ho uo dbo bo) location rc).1.head? =
      some (Effect.setEnv "PGPASSWORD" password)) ∧
    ((restore (AppConfig.mk (some password) ho uo dbo bo) location rc).1.head? =
      some (Effect.setEnv "PGPASSWORD" password)) ∧
    ((dump (AppConfig.mk (some password) (some host) (some username)
        (some db_name) (some bin_dir)) location rc).1 =
      [Effect.setEnv "PGPASSWORD" password,
       Effect.call [bin_dir ++ "pg_dump", "--host=" ++ host,
         "--username=" ++ username, "--format=c", db_name,
         "--file=" ++ location]]) ∧
    ((restore (AppConfig.mk (some password) (some host) (some username)
        (some db_name) (some bin_dir)) location rc).1 =
      [Effect.setEnv "PGPASSWORD" password,
       Effect.call [bin_dir ++ "pg_restore", "--host=" ++ host,
         "--username=" ++ username, "--dbname=" ++ db_name, "--clean",
         location]]) := by
  refine ⟨?_, ?_, rfl, rfl⟩
  · cases bo <;> cases ho <;> cases uo <;> cases dbo <;> rfl
  · cases bo <;> cases ho <;> cases uo <;> cases dbo <;> rfl

/-- C8: the result of dump and restore does not depend on the child
process exit code, at most one subprocess call is made (no retry), and
whenever the subprocess is invoked the command finishes with no Python
error. -/
theorem C8_exit_code_ignored (cfg : AppConfig) (location : String) (a b : Int) :
    dump cfg location a = dump cfg location b ∧
    restore cfg location a = restore cfg location b ∧
    (dump cfg location a).1.countP is_call ≤ 1 ∧
    (restore cfg location a).1.countP is_call ≤ 1 ∧
    ((dump cfg location a).1.countP is_call = 0 ∨
      (dump cfg location a).2 = none) ∧
    ((restore cfg location a).1.countP is_call = 0 ∨
      (restore cfg location a).2 = none) := by
  obtain ⟨pw, ho, uo, dbo, bo⟩ := cfg
  refine ⟨rfl, rfl, ?_, ?_, ?_, ?_⟩ <;>
    cases pw <;> cases bo <;> cases ho <;> cases uo <;> cases dbo <;>
      simp [dump, restore, is_call]

/-- C9: invoking `db migrate current` raises a TypeError for the
callback parameter `head_only`, which has no click option and receives no
value, so `alembic.command.current` is never reached. -/
theorem C9_current_type_error :
    current_cmd = CurrentResult.type_error "head_only" ∧
    "head_only" ∉ current_option_params ∧
    current_cmd ≠ CurrentResult.engine_current := by
  decide

/-- C10: the native binary path is the raw concatenation of `PG_BIN_DIR`
with the binary name (no separator inserted), and when `PG_BIN_DIR` is
absent both commands stop with a TypeError after the `PGPASSWORD`
environment variable has already been set, leaving that mutation in
place. -/
theorem C10_bin_dir_concat (password host username db_name bin_dir location : String)
    (ho uo dbo : Option String) (rc : Int) :
    ((dump (AppConfig.mk (some password) (some host) (some username)
        (some db_name) (some bin_dir)) location rc).1 =
      [Effect.setEnv "PGPASSWORD" password,
       Effect.call ((bin_dir ++ "pg_dump") ::
         ["--host=" ++ host, "--username=" ++ username, "--format=c",
          db_name, "--file=" ++ location])]) ∧
    ((restore (AppConfig.mk (some password) (some host) (some username)
        (some db_name) (some bin_dir)) location rc).1 =
      [Effect.setEnv "PGPASSWORD" password,
       Effect.call ((bin_dir ++ "pg_restore") ::
         ["--host=" ++ host, "--username=" ++ username,
          "--dbname=" ++ db_name, "--clean", location])]) ∧
    (dump (AppConfig.mk (some password) ho uo dbo none) location rc =
      ([Effect.setEnv "PGPASSWORD" password], some PyError.typeError)) ∧
    (restore (AppConfig.mk (some password) ho uo dbo none) location rc =
      ([Effect.setEnv "PGPASSWORD" password], some PyError.typeError)) ∧
    ((dump (AppConfig.mk (some "pw") (some "h") (some "u") (some "d")
        (some "/usr/bin")) location rc).1 =
      [Effect.setEnv "PGPASSWORD" "pw",
       Effect.call ["/usr/binpg_dump", "--host=h", "--username=u",
         "--format=c", "d", "--file=" ++ location]]) := by
  refine ⟨rfl, rfl, rfl, rfl, rfl⟩

end FlaskDbAdmin
